import Mathlib

/-!
Verification of the contact-form email relay (`contact-form/app.py`).

The repository exposes a single route `POST /email`.  The handler
1. parses the request body as JSON (before opening any span);
2. opens a trace span `send_email`;
3. inside a try/except: sets span attributes for the subject and the
   submitter's email, constructs a `Mail` (to = `SENDGRID_TO_EMAIL`,
   from = `SENDGRID_FROM_EMAIL`, subject verbatim, HTML body
   `f"{message}<br />From: {name}"`, reply-to = submitter's email),
   and dispatches it through the SendGrid client;
4. on success sets `email.status = "success"`, span status OK, and returns
   HTTP 200 with `{"status": "success", "code": response.status_code}`;
5. on any exception sets `email.status = "error"`, `email.error = str(e)`,
   span status ERROR with `str(e)`, and raises
   `HTTPException(500, detail=f"SendGrid Error: {str(e)}")`.

The embedding below is a pure function of the configured environment, the
provider's behaviour (an arbitrary function from API key and mail to either
a status code or an error text), and the parsed request body (`none` models
a body that is not parseable as JSON).  The outcome records the HTTP-level
result, the span (if one was opened) with its attributes and final status,
and the list of provider send attempts.
-/

namespace ContactForm

/-- A parsed JSON request body: an association list of string fields
(`message_data` in the source).  Lookup of an absent key models Python's
`KeyError`. -/
abbrev RequestBody := List (String × String)

/-- `message_data[k]`: first-match association-list lookup, `none` when the
key is absent (Python raises `KeyError`). -/
def getItem (d : RequestBody) (k : String) : Option String :=
  match d with
  | [] => none
  | (k2, v) :: rest => if k2 = k then some v else getItem rest k

/-- `str(KeyError(k))` in Python is the key wrapped in single quotes
(`\x27` is the apostrophe character). -/
def keyErrText (k : String) : String := "\x27" ++ k ++ "\x27"

/-- A span attribute value: the handler only ever sets string values, but the
type also admits numeric values so that the claim "the provider's response
code is attached as an attribute" is statable. -/
inductive AttrValue where
  | str (s : String)
  | nat (n : Nat)
deriving DecidableEq, Repr

/-- Final status of the `send_email` span (OpenTelemetry StatusCode). -/
inductive SpanStatus where
  | unset
  | ok
  | error (msg : String)
deriving DecidableEq, Repr

/-- The `send_email` span: the attributes set on it, in order, and its final
status. -/
structure Span where
  attrs : List (String × AttrValue)
  status : SpanStatus
deriving DecidableEq, Repr

/-- The outbound email (`sendgrid.helpers.mail.Mail` plus the `reply_to`
assignment).  `to_emails` and `from_email` come from `os.environ.get`, which
may return `None`, hence `Option`. -/
structure Mail where
  to_emails : Option String
  from_email : Option String
  subject : String
  html_content : String
  reply_to : Option String
deriving DecidableEq, Repr

/-- The environment configuration read by the handler. -/
structure Env where
  SENDGRID_TO_EMAIL : Option String
  SENDGRID_FROM_EMAIL : Option String
  SENDGRID_API_KEY : Option String

/-- The HTTP-level result of one request to `POST /email`. -/
inductive HandlerResult where
  /-- HTTP 200 with JSON body `{"status": status, "code": code}`. -/
  | ok200 (status : String) (code : Nat)
  /-- A raised `HTTPException(status_code, detail)`. -/
  | httpError (statusCode : Nat) (detail : String)
  /-- `await request.json()` raised before the span was opened; the
  exception propagates to the framework, not through the handler's
  try/except. -/
  | uncaughtParseError
deriving DecidableEq, Repr

/-- Everything observable about one request: the HTTP result, the span (if
one was opened), and the provider send attempts made. -/
structure Outcome where
  result : HandlerResult
  span : Option Span
  sends : List Mail
deriving DecidableEq, Repr

/-- The provider's behaviour: `SendGridAPIClient(api_key).send(mail)` either
returns a response carrying a status code or raises with an error text. -/
abbrev Provider := Option String → Mail → Except String Nat

/-- The `except Exception as e` branch: given the attributes already set on
the span and `str(e)`, it appends `email.status = "error"` and
`email.error`, sets span status ERROR, and raises
`HTTPException(500, "SendGrid Error: " + str(e))`. -/
def exceptBranch (a : List (String × AttrValue)) (e : String)
    (sends : List Mail) : Outcome :=
  { result := .httpError 500 ("SendGrid Error: " ++ e)
  , span := some { attrs := a ++ [("email.status", .str "error"), ("email.error", .str e)]
                 , status := .error e }
  , sends := sends }

/-- The `POST /email` handler.  `body = none` models a request body that is
not parseable as JSON (`await request.json()` raises before the span is
opened).  Field lookups happen in source order: `subject` (line 57),
`email` (line 58), then inside the `Mail` construction `message` and `name`
(line 65); all of them precede the `sg.send` call (line 71). -/
def email (env : Env) (sg_send : Provider) (body : Option RequestBody) : Outcome :=
  match body with
  | none => { result := .uncaughtParseError, span := none, sends := [] }
  | some message_data =>
    match getItem message_data "subject" with
    | none => exceptBranch [] (keyErrText "subject") []
    | some subj =>
      let a1 := [("email.subject", AttrValue.str subj)]
      match getItem message_data "email" with
      | none => exceptBranch a1 (keyErrText "email") []
      | some em =>
        let a2 := a1 ++ [("email.from", AttrValue.str em)]
        match getItem message_data "message" with
        | none => exceptBranch a2 (keyErrText "message") []
        | some msg =>
          match getItem message_data "name" with
          | none => exceptBranch a2 (keyErrText "name") []
          | some nm =>
            let message : Mail :=
              { to_emails := env.SENDGRID_TO_EMAIL
              , from_email := env.SENDGRID_FROM_EMAIL
              , subject := subj
              , html_content := msg ++ "<br />From: " ++ nm
              , reply_to := some em }
            match sg_send env.SENDGRID_API_KEY message with
            | .error e => exceptBranch a2 e [message]
            | .ok code =>
              { result := .ok200 "success" code
              , span := some { attrs := a2 ++ [("email.status", .str "success")]
                             , status := .ok }
              , sends := [message] }

/-! Concrete fixtures used by witnesses and counterexamples. -/

/-- A concrete environment configuration. -/
def env₀ : Env :=
  { SENDGRID_TO_EMAIL := some "owner@example.com"
  , SENDGRID_FROM_EMAIL := some "relay@example.com"
  , SENDGRID_API_KEY := some "SG.key" }

/-- A provider that accepts every mail with status code 202. -/
def sg₀ : Provider := fun _ _ => .ok 202

/-- A provider that raises on every send. -/
def sgFail : Provider := fun _ _ => .error "HTTP Error 401: Unauthorized"

/-- A well-formed submission with all four required fields. -/
def d₁ : RequestBody :=
  [("name", "Ada"), ("email", "ada@example.com"), ("subject", "Hi"),
   ("message", "Hello")]

/-! ## Claim theorems -/

/-- C1: for every `POST /email` request whose JSON body contains the four
string fields `name`, `email`, `subject`, `message`, and for which the
provider send call returns without raising, the handler returns HTTP 200
with body `{"status": "success", "code": c}` where `c` is exactly the
status code returned by the provider's response. -/
theorem email_success_response (env : Env) (sg : Provider) (d : RequestBody)
    (s em m n : String) (c : Nat)
    (hs : getItem d "subject" = some s)
    (he : getItem d "email" = some em)
    (hm : getItem d "message" = some m)
    (hn : getItem d "name" = some n)
    (hp : sg env.SENDGRID_API_KEY
      { to_emails := env.SENDGRID_TO_EMAIL
      , from_email := env.SENDGRID_FROM_EMAIL
      , subject := s
      , html_content := m ++ "<br />From: " ++ n
      , reply_to := some em } = .ok c) :
    (email env sg (some d)).result = .ok200 "success" c := by
  simp [email, hs, he, hm, hn, hp]

/-- Witness for C1 at a concrete submission and provider. -/
theorem email_success_response_witness :
    (email env₀ sg₀ (some d₁)).result = .ok200 "success" 202 :=
  email_success_response env₀ sg₀ d₁ "Hi" "ada@example.com" "Hello" "Ada" 202
    (by decide) (by decide) (by decide) (by decide) rfl

/-- The exception, if any, that the handler's try block raises for a parsed
body `d`: the first missing-field `KeyError` in source access order —
`subject` (line 57), `email` (line 58), then `message` and `name` inside the
`Mail` construction (line 65) — or else the error the provider raises on
`sg.send` (line 71).  `none` when the try block completes without raising. -/
def raisedExc (env : Env) (sg_send : Provider) (d : RequestBody) : Option String :=
  match getItem d "subject" with
  | none => some (keyErrText "subject")
  | some subj =>
    match getItem d "email" with
    | none => some (keyErrText "email")
    | some em =>
      match getItem d "message" with
      | none => some (keyErrText "message")
      | some msg =>
        match getItem d "name" with
        | none => some (keyErrText "name")
        | some nm =>
          match sg_send env.SENDGRID_API_KEY
            { to_emails := env.SENDGRID_TO_EMAIL
            , from_email := env.SENDGRID_FROM_EMAIL
            , subject := subj
            , html_content := msg ++ "<br />From: " ++ nm
            , reply_to := some em } with
          | .error e => some e
          | .ok _ => none

/-- C2: whenever the provider send call — or any step of email construction
inside the span, such as a missing-field `KeyError` — raises an exception
with text `e`, the handler catches it and responds with HTTP 500 whose
detail is `"SendGrid Error: " ++ e`: not the success response, and the
detail contains the exception's text. -/
theorem email_span_raise_response (env : Env) (sg : Provider)
    (d : RequestBody) (e : String)
    (h : raisedExc env sg d = some e) :
    (email env sg (some d)).result = .httpError 500 ("SendGrid Error: " ++ e) ∧
    ∃ p, "SendGrid Error: " ++ e = p ++ e := by
  refine ⟨?_, "SendGrid Error: ", rfl⟩
  rcases hs : getItem d "subject" with _ | s
  · simp [raisedExc, hs] at h
    subst h
    simp [email, exceptBranch, hs]
  rcases he : getItem d "email" with _ | em
  · simp [raisedExc, hs, he] at h
    subst h
    simp [email, exceptBranch, hs, he]
  rcases hm : getItem d "message" with _ | m
  · simp [raisedExc, hs, he, hm] at h
    subst h
    simp [email, exceptBranch, hs, he, hm]
  rcases hn : getItem d "name" with _ | n
  · simp [raisedExc, hs, he, hm, hn] at h
    subst h
    simp [email, exceptBranch, hs, he, hm, hn]
  rcases hsg : sg env.SENDGRID_API_KEY
      { to_emails := env.SENDGRID_TO_EMAIL
      , from_email := env.SENDGRID_FROM_EMAIL
      , subject := s
      , html_content := m ++ "<br />From: " ++ n
      , reply_to := some em } with e2 | c
  · simp [raisedExc, hs, he, hm, hn, hsg] at h
    subst h
    simp [email, exceptBranch, hs, he, hm, hn, hsg]
  · simp [raisedExc, hs, he, hm, hn, hsg] at h

/-- Witness for C2 at a submission whose `message` field is missing: the
`KeyError` raised during `Mail` construction inside the span is surfaced as
HTTP 500 with its text in the detail. -/
theorem email_span_raise_response_witness :
    (email env₀ sg₀ (some [("name", "Ada"), ("email", "ada@example.com"),
        ("subject", "Hi")])).result
      = .httpError 500 ("SendGrid Error: " ++ keyErrText "message") ∧
    ∃ p, "SendGrid Error: " ++ keyErrText "message" = p ++ keyErrText "message" :=
  email_span_raise_response env₀ sg₀
    [("name", "Ada"), ("email", "ada@example.com"), ("subject", "Hi")]
    (keyErrText "message") (by decide)

/-- C3: for every submission with all four fields, the outbound email handed
to the provider has to-address `SENDGRID_TO_EMAIL`, from-address
`SENDGRID_FROM_EMAIL`, the input subject verbatim, and HTML body
`message ++ "<br />From: " ++ name` — which always ends with
`"From: " ++ name` (the line break being the HTML `<br />`). -/
theorem email_builds_mail (env : Env) (sg : Provider) (d : RequestBody)
    (s em m n : String)
    (hs : getItem d "subject" = some s)
    (he : getItem d "email" = some em)
    (hm : getItem d "message" = some m)
    (hn : getItem d "name" = some n) :
    (email env sg (some d)).sends =
      [{ to_emails := env.SENDGRID_TO_EMAIL
       , from_email := env.SENDGRID_FROM_EMAIL
       , subject := s
       , html_content := m ++ "<br />From: " ++ n
       , reply_to := some em }] ∧
    ∃ p, m ++ "<br />From: " ++ n = p ++ ("From: " ++ n) := by
  constructor
  · rcases hsg : sg env.SENDGRID_API_KEY
      { to_emails := env.SENDGRID_TO_EMAIL
      , from_email := env.SENDGRID_FROM_EMAIL
      , subject := s
      , html_content := m ++ "<br />From: " ++ n
      , reply_to := some em } with e | c <;>
      simp [email, exceptBranch, hs, he, hm, hn, hsg]
  · refine ⟨m ++ "<br />", ?_⟩
    have hsplit : ("<br />From: " : String) = "<br />" ++ "From: " := by decide
    simp only [hsplit, String.append_assoc]

/-- Witness for C3 at a concrete submission. -/
theorem email_builds_mail_witness :
    (email env₀ sg₀ (some d₁)).sends =
      [{ to_emails := env₀.SENDGRID_TO_EMAIL
       , from_email := env₀.SENDGRID_FROM_EMAIL
       , subject := "Hi"
       , html_content := "Hello" ++ "<br />From: " ++ "Ada"
       , reply_to := some "ada@example.com" }] ∧
    ∃ p, "Hello" ++ "<br />From: " ++ "Ada" = p ++ ("From: " ++ "Ada") :=
  email_builds_mail env₀ sg₀ d₁ "Hi" "ada@example.com" "Hello" "Ada"
    (by decide) (by decide) (by decide) (by decide)

/-- C4: every outbound email the handler hands to the provider carries the
submitter's `email` field as its reply-to address, for every environment
(in particular for every configured sender address `SENDGRID_FROM_EMAIL`). -/
theorem email_reply_to (env : Env) (sg : Provider) (d : RequestBody)
    (em : String)
    (he : getItem d "email" = some em) :
    ∀ msg ∈ (email env sg (some d)).sends, msg.reply_to = some em := by
  intro msg hmsg
  rcases hs : getItem d "subject" with _ | s
  · simp [email, exceptBranch, hs] at hmsg
  · rcases hm : getItem d "message" with _ | m
    · simp [email, exceptBranch, hs, he, hm] at hmsg
    · rcases hn : getItem d "name" with _ | n
      · simp [email, exceptBranch, hs, he, hm, hn] at hmsg
      · rcases hsg : sg env.SENDGRID_API_KEY
          { to_emails := env.SENDGRID_TO_EMAIL
          , from_email := env.SENDGRID_FROM_EMAIL
          , subject := s
          , html_content := m ++ "<br />From: " ++ n
          , reply_to := some em } with e | c <;>
        · simp [email, exceptBranch, hs, he, hm, hn, hsg] at hmsg
          simp [hmsg]

/-- The mail the handler sends for `d₁` under `env₀`. -/
def mail₁ : Mail :=
  { to_emails := some "owner@example.com"
  , from_email := some "relay@example.com"
  , subject := "Hi"
  , html_content := "Hello<br />From: Ada"
  , reply_to := some "ada@example.com" }

/-- Witness for C4 at a concrete submission, with an environment whose
configured sender differs from the submitter's address. -/
theorem email_reply_to_witness :
    mail₁.reply_to = some "ada@example.com" :=
  email_reply_to env₀ sg₀ d₁ "ada@example.com" (by decide) mail₁ (by decide)

/-- A submission whose `name` field is missing. -/
def dNoName : RequestBody :=
  [("email", "ada@example.com"), ("subject", "Hi"), ("message", "Hello")]

/-- C5: for every parsed JSON body missing at least one of the four required
fields, the handler returns a failure response (HTTP 500) and the provider
send call is never invoked: all four field accesses (lines 57, 58, 64, 65,
67) precede `sg.send` (line 71), so the `KeyError` aborts before dispatch. -/
theorem email_missing_field_no_send (env : Env) (sg : Provider)
    (d : RequestBody)
    (h : getItem d "name" = none ∨ getItem d "email" = none ∨
         getItem d "subject" = none ∨ getItem d "message" = none) :
    (email env sg (some d)).sends = [] ∧
    ∃ det, (email env sg (some d)).result = .httpError 500 det := by
  rcases hs : getItem d "subject" with _ | s
  · refine ⟨?_, "SendGrid Error: " ++ keyErrText "subject", ?_⟩ <;>
      simp [email, exceptBranch, hs]
  rcases he : getItem d "email" with _ | em
  · refine ⟨?_, "SendGrid Error: " ++ keyErrText "email", ?_⟩ <;>
      simp [email, exceptBranch, hs, he]
  rcases hm : getItem d "message" with _ | m
  · refine ⟨?_, "SendGrid Error: " ++ keyErrText "message", ?_⟩ <;>
      simp [email, exceptBranch, hs, he, hm]
  rcases hn : getItem d "name" with _ | n
  · refine ⟨?_, "SendGrid Error: " ++ keyErrText "name", ?_⟩ <;>
      simp [email, exceptBranch, hs, he, hm, hn]
  rcases h with h | h | h | h <;> simp_all

/-- Witness for C5 at a submission missing the `name` field. -/
theorem email_missing_field_no_send_witness :
    (email env₀ sg₀ (some dNoName)).sends = [] ∧
    ∃ det, (email env₀ sg₀ (some dNoName)).result = .httpError 500 det :=
  email_missing_field_no_send env₀ sg₀ dNoName (Or.inl (by decide))

/-- C7: for every request, the provider's send operation is invoked at most
once — no path through the handler attempts a second send. -/
theorem email_sends_at_most_once (env : Env) (sg : Provider)
    (b : Option RequestBody) : (email env sg b).sends.length ≤ 1 := by
  rcases b with _ | d
  · simp [email]
  rcases hs : getItem d "subject" with _ | s
  · simp [email, exceptBranch, hs]
  rcases he : getItem d "email" with _ | em
  · simp [email, exceptBranch, hs, he]
  rcases hm : getItem d "message" with _ | m
  · simp [email, exceptBranch, hs, he, hm]
  rcases hn : getItem d "name" with _ | n
  · simp [email, exceptBranch, hs, he, hm, hn]
  rcases hsg : sg env.SENDGRID_API_KEY
      { to_emails := env.SENDGRID_TO_EMAIL
      , from_email := env.SENDGRID_FROM_EMAIL
      , subject := s
      , html_content := m ++ "<br />From: " ++ n
      , reply_to := some em } with e | c <;>
    simp [email, exceptBranch, hs, he, hm, hn, hsg]

/-- C8: every exception caught inside the handler's span — a `KeyError` for
a missing input field just as much as a provider failure — yields HTTP 500
whose detail begins with the literal prefix `"SendGrid Error: "`. -/
theorem email_error_detail_sendgrid (env : Env) (sg : Provider)
    (d : RequestBody) (s : Nat) (det : String)
    (h : (email env sg (some d)).result = .httpError s det) :
    s = 500 ∧ ∃ rest, det = "SendGrid Error: " ++ rest := by
  rcases hs : getItem d "subject" with _ | su
  · simp [email, exceptBranch, hs] at h
    exact ⟨h.1.symm, keyErrText "subject", h.2.symm⟩
  rcases he : getItem d "email" with _ | em
  · simp [email, exceptBranch, hs, he] at h
    exact ⟨h.1.symm, keyErrText "email", h.2.symm⟩
  rcases hm : getItem d "message" with _ | m
  · simp [email, exceptBranch, hs, he, hm] at h
    exact ⟨h.1.symm, keyErrText "message", h.2.symm⟩
  rcases hn : getItem d "name" with _ | n
  · simp [email, exceptBranch, hs, he, hm, hn] at h
    exact ⟨h.1.symm, keyErrText "name", h.2.symm⟩
  rcases hsg : sg env.SENDGRID_API_KEY
      { to_emails := env.SENDGRID_TO_EMAIL
      , from_email := env.SENDGRID_FROM_EMAIL
      , subject := su
      , html_content := m ++ "<br />From: " ++ n
      , reply_to := some em } with e | c
  · simp [email, exceptBranch, hs, he, hm, hn, hsg] at h
    exact ⟨h.1.symm, e, h.2.symm⟩
  · simp [email, exceptBranch, hs, he, hm, hn, hsg] at h

/-- Witness for C8 at a submission with no fields at all: the `KeyError` for
`subject` is surfaced with the provider-error prefix. -/
theorem email_error_detail_sendgrid_witness :
    500 = 500 ∧ ∃ rest,
      "SendGrid Error: " ++ keyErrText "subject" = "SendGrid Error: " ++ rest :=
  email_error_detail_sendgrid env₀ sg₀ [] 500
    ("SendGrid Error: " ++ keyErrText "subject") (by decide)

/-- C9: when the request body is not parseable as JSON, the parse error is
raised at line 51, before the `send_email` span is opened at line 54 and
outside the try/except: no span is created, no attributes or status are
recorded, the provider is never called, and the handler does not produce the
HTTP 500 `"SendGrid Error: "` response — the exception propagates to the
framework (result `uncaughtParseError`). -/
theorem email_unparseable_no_span (env : Env) (sg : Provider) :
    (email env sg none).span = none ∧
    (email env sg none).result = .uncaughtParseError ∧
    (email env sg none).sends = [] :=
  ⟨rfl, rfl, rfl⟩

/-- C6 counterexample: on a concrete successful dispatch (provider code
202), the span's attributes are exactly `email.subject`, `email.from` and
`email.status = "success"` — all string-valued — so no attribute carries the
provider's response code 202.  The code logs `response.status_code` (line
73) but never calls `span.set_attribute` with it. -/
theorem email_span_code_attr_cex :
    (email env₀ sg₀ (some d₁)).result = HandlerResult.ok200 "success" 202 ∧
    (email env₀ sg₀ (some d₁)).span =
      some { attrs := [("email.subject", .str "Hi"),
                       ("email.from", .str "ada@example.com"),
                       ("email.status", .str "success")]
           , status := .ok } ∧
    ∀ kv ∈ [("email.subject", AttrValue.str "Hi"),
            ("email.from", AttrValue.str "ada@example.com"),
            ("email.status", AttrValue.str "success")],
      kv.2 ≠ AttrValue.nat 202 := by
  decide

/-- C6 (amended): before dispatch the span receives attributes for the
subject and the submitter's email; after a successful dispatch it receives a
success status attribute and span status OK (the provider's response code is
only logged and returned, never attached to the span); after a failed
dispatch it receives an error status attribute, the error text, and span
status ERROR carrying the error message. -/
theorem email_span_records (env : Env) (sg : Provider) (d : RequestBody)
    (s em m n : String)
    (hs : getItem d "subject" = some s)
    (he : getItem d "email" = some em)
    (hm : getItem d "message" = some m)
    (hn : getItem d "name" = some n) :
    (∀ c, sg env.SENDGRID_API_KEY
        { to_emails := env.SENDGRID_TO_EMAIL
        , from_email := env.SENDGRID_FROM_EMAIL
        , subject := s
        , html_content := m ++ "<br />From: " ++ n
        , reply_to := some em } = .ok c →
      (email env sg (some d)).span =
        some { attrs := [("email.subject", .str s), ("email.from", .str em),
                         ("email.status", .str "success")]
             , status := .ok }) ∧
    (∀ e, sg env.SENDGRID_API_KEY
        { to_emails := env.SENDGRID_TO_EMAIL
        , from_email := env.SENDGRID_FROM_EMAIL
        , subject := s
        , html_content := m ++ "<br />From: " ++ n
        , reply_to := some em } = .error e →
      (email env sg (some d)).span =
        some { attrs := [("email.subject", .str s), ("email.from", .str em),
                         ("email.status", .str "error"), ("email.error", .str e)]
             , status := .error e }) := by
  constructor <;> intro x hx <;> simp [email, exceptBranch, hs, he, hm, hn, hx]

/-- Witness for the amended C6: the success branch at a concrete run. -/
theorem email_span_records_witness :
    (email env₀ sg₀ (some d₁)).span =
      some { attrs := [("email.subject", .str "Hi"),
                       ("email.from", .str "ada@example.com"),
                       ("email.status", .str "success")]
           , status := .ok } :=
  (email_span_records env₀ sg₀ d₁ "Hi" "ada@example.com" "Hello" "Ada"
    (by decide) (by decide) (by decide) (by decide)).1 202 rfl

/-! ## Concurrency (C10)

The handler is request-scoped: all its state (parsed body, span, mail) is
local, and the environment and provider are only read.  We make this precise
with a small-step machine: one `HState` per in-flight request, and a system
of two concurrent requests advanced under an arbitrary interleaving
schedule.  Every schedule that gives each request its three steps ends with
each request's outcome equal to the sequential `email` function of that
request's own submission alone. -/

/-- The control state of one in-flight request to `POST /email`. -/
inductive HState where
  /-- About to parse the body (line 51). -/
  | start (body : Option RequestBody)
  /-- Span opened (line 54), about to run the try block. -/
  | inSpan (message_data : RequestBody)
  /-- Attributes set and mail built (lines 57-67), about to call
  `sg.send` (line 71); carries the attributes set so far and the mail. -/
  | built (a : List (String × AttrValue)) (message : Mail)
  /-- Request finished with outcome `o`. -/
  | done (o : Outcome)

/-- One step of a single request.  Only the request's own local state is
read and written; the environment and provider behaviour are immutable. -/
def stepH (env : Env) (sg_send : Provider) : HState → HState
  | .start none => .done { result := .uncaughtParseError, span := none, sends := [] }
  | .start (some message_data) => .inSpan message_data
  | .inSpan message_data =>
    match getItem message_data "subject" with
    | none => .done (exceptBranch [] (keyErrText "subject") [])
    | some subj =>
      let a1 := [("email.subject", AttrValue.str subj)]
      match getItem message_data "email" with
      | none => .done (exceptBranch a1 (keyErrText "email") [])
      | some em =>
        let a2 := a1 ++ [("email.from", AttrValue.str em)]
        match getItem message_data "message" with
        | none => .done (exceptBranch a2 (keyErrText "message") [])
        | some msg =>
          match getItem message_data "name" with
          | none => .done (exceptBranch a2 (keyErrText "name") [])
          | some nm =>
            .built a2
              { to_emails := env.SENDGRID_TO_EMAIL
              , from_email := env.SENDGRID_FROM_EMAIL
              , subject := subj
              , html_content := msg ++ "<br />From: " ++ nm
              , reply_to := some em }
  | .built a2 message =>
    match sg_send env.SENDGRID_API_KEY message with
    | .error e => .done (exceptBranch a2 e [message])
    | .ok code =>
      .done { result := .ok200 "success" code
            , span := some { attrs := a2 ++ [("email.status", .str "success")]
                           , status := .ok }
            , sends := [message] }
  | .done o => .done o

/-- `n` steps of a single request. -/
def runH (env : Env) (sg : Provider) : Nat → HState → HState
  | 0, st => st
  | n + 1, st => runH env sg n (stepH env sg st)

theorem runH_succ (env : Env) (sg : Provider) (n : Nat) (st : HState) :
    runH env sg (n + 1) st = runH env sg n (stepH env sg st) := rfl

/-- Three steps from `start` always finish, with the outcome computed by the
sequential handler. -/
theorem runH_start (env : Env) (sg : Provider) (b : Option RequestBody) :
    runH env sg 3 (.start b) = .done (email env sg b) := by
  rcases b with _ | d
  · rfl
  rcases hs : getItem d "subject" with _ | s
  · simp [runH, stepH, email, hs]
  rcases he : getItem d "email" with _ | em
  · simp [runH, stepH, email, hs, he]
  rcases hm : getItem d "message" with _ | m
  · simp [runH, stepH, email, hs, he, hm]
  rcases hn : getItem d "name" with _ | n
  · simp [runH, stepH, email, hs, he, hm, hn]
  rcases hsg : sg env.SENDGRID_API_KEY
      { to_emails := env.SENDGRID_TO_EMAIL
      , from_email := env.SENDGRID_FROM_EMAIL
      , subject := s
      , html_content := m ++ "<br />From: " ++ n
      , reply_to := some em } with e | c <;>
    simp [runH, stepH, email, hs, he, hm, hn, hsg]

/-- One step of a system of two concurrent requests: the scheduled side
(`true` = first request, `false` = second) advances; the other is
untouched. -/
def stepSys (env : Env) (sg : Provider) (side : Bool)
    (s : HState × HState) : HState × HState :=
  if side then (stepH env sg s.1, s.2) else (s.1, stepH env sg s.2)

/-- Run the two-request system under an interleaving schedule. -/
def runSys (env : Env) (sg : Provider) : List Bool → HState × HState → HState × HState
  | [], s => s
  | side :: rest, s => runSys env sg rest (stepSys env sg side s)

/-- Non-interference: under any interleaving, each side ends exactly where
running it alone for its own number of steps would — the other request never
influences it. -/
theorem runSys_eq (env : Env) (sg : Provider) :
    ∀ (sched : List Bool) (s₁ s₂ : HState),
      runSys env sg sched (s₁, s₂) =
        (runH env sg (sched.count true) s₁, runH env sg (sched.count false) s₂) := by
  intro sched
  induction sched with
  | nil => intro s₁ s₂; simp [runSys, runH]
  | cons side rest ih =>
    intro s₁ s₂
    cases side <;>
      simp [runSys, stepSys, List.count_cons, ih, runH_succ]

/-- C10: for every pair of concurrent requests and every interleaving
schedule that runs both to completion, each response (result, span and
sends) is exactly the sequential handler's outcome on that request's own
submission — no cross-contamination between the two requests. -/
theorem email_concurrent_independent (env : Env) (sg : Provider)
    (b₁ b₂ : Option RequestBody) (sched : List Bool)
    (h₁ : sched.count true = 3) (h₂ : sched.count false = 3) :
    runSys env sg sched (.start b₁, .start b₂)
      = (.done (email env sg b₁), .done (email env sg b₂)) := by
  rw [runSys_eq, h₁, h₂, runH_start, runH_start]

/-- Witness for C10: two different submissions under a concrete interleaved
schedule. -/
theorem email_concurrent_independent_witness :
    runSys env₀ sg₀ [true, false, false, true, true, false]
      (.start (some d₁), .start (some dNoName))
      = (.done (email env₀ sg₀ (some d₁)), .done (email env₀ sg₀ (some dNoName))) :=
  email_concurrent_independent env₀ sg₀ (some d₁) (some dNoName)
    [true, false, false, true, true, false] (by decide) (by decide)

end ContactForm
